import Mathlib

set_option maxHeartbeats 1000000

/-!
Shallow embedding of the customer-support bot (SupportBotAgent) from
`Support_Bot_Agent.py` (command-line variant) and the Streamlit variant
(`app.py`).  Strings are Lean `String`s; the external ML capabilities
(sentence embedder + cosine similarity, extractive QA pipeline) are
parameters.  For the command-line variant the capabilities may raise, which
is modelled by `Except CapErr`; the Streamlit variant's claims only concern
successful capability runs, so its capabilities are total functions.
Randomness of the feedback simulator is an oracle `rands : Nat -> Feedback`
supplying the random draw of each classification round.
-/

/-- Python whitespace test for the characters the documents use
(space, tab, newline, carriage return). -/
def isPySpace (c : Char) : Bool := c.isWhitespace

/-- Python `str.strip()` on a character list: drop leading and trailing
whitespace. -/
def stripChars (cs : List Char) : List Char :=
  ((cs.dropWhile isPySpace).reverse.dropWhile isPySpace).reverse

/-- Python `str.strip()` on a string. -/
def pyStrip (s : String) : String := String.mk (stripChars s.data)

/-- Python `text.split('\n\n')`: cut the character list at every
(non-overlapping, leftmost-first) occurrence of two consecutive newlines.
`acc` is the reversed current piece. -/
def splitParaAux : List Char → List Char → List (List Char)
  | acc, [] => [acc.reverse]
  | acc, [c] => [(c :: acc).reverse]
  | acc, c1 :: c2 :: rest =>
    if c1 = '\n' ∧ c2 = '\n' then acc.reverse :: splitParaAux [] rest
    else splitParaAux (c1 :: acc) (c2 :: rest)

/-- Python `text.split('\n')`: cut the character list at every newline. -/
def splitLinesAux : List Char → List Char → List (List Char)
  | acc, [] => [acc.reverse]
  | acc, c :: rest =>
    if c = '\n' then acc.reverse :: splitLinesAux [] rest
    else splitLinesAux (c :: acc) rest

/-- `[s.strip() for s in text.split('\n\n') if s.strip()]`
(`SupportBotAgent.__init__`, primary paragraph split). -/
def segmentParas (text : String) : List String :=
  ((splitParaAux [] text.data).map (fun p => String.mk (stripChars p))).filter
    (fun s => s != "")

/-- `[s.strip() for s in text.split('\n') if s.strip()]`
(`SupportBotAgent.__init__`, line-split fallback). -/
def segmentLines (text : String) : List String :=
  ((splitLinesAux [] text.data).map (fun p => String.mk (stripChars p))).filter
    (fun s => s != "")

/-- The section computation of `SupportBotAgent.__init__`: paragraph split,
falling back to the line split when the paragraph split yields no sections.
The code has no failure path here: whatever list results (possibly empty) is
stored in `self.sections` and initialization continues. -/
def initSections (text : String) : List String :=
  let sections := segmentParas text
  if sections = [] then segmentLines text else sections

/-- Python `str.split()` with no argument: whitespace-run tokenisation,
dropping empty tokens. -/
def wsTokensAux : List Char → List Char → List (List Char)
  | acc, [] => if acc.isEmpty then [] else [acc.reverse]
  | acc, c :: rest =>
    if isPySpace c then
      if acc.isEmpty then wsTokensAux [] rest
      else acc.reverse :: wsTokensAux [] rest
    else wsTokensAux (c :: acc) rest

/-- `response.split()` as used by the feedback simulators. -/
def pyTokens (s : String) : List String := (wsTokensAux [] s.data).map String.mk

/-- The closed set of feedback labels. -/
inductive Feedback
  | good
  | tooVague
  | notHelpful
deriving DecidableEq

/-- A raised exception of an external capability (the code catches generic
`Exception`; the error value itself is never inspected). -/
inductive CapErr
  | capFail
deriving DecidableEq

/-- Fallback returned by `answer_query` when retrieval fails or the context
is too short. -/
def fallbackNoInfo : String := "I don\x27t have enough information to answer that."

/-- Fallback returned by `answer_query` when the QA model raises. -/
def fallbackAnswerError : String := "I encountered an error generating an answer."

/-- Clarification suffix appended to the original query on `not helpful`
feedback (command-line variant). -/
def clarifySuffix : String := " Please be more specific and provide steps or examples."

/-- Clarification suffix appended to the original query on `not helpful`
feedback (Streamlit variant). -/
def detailsSuffix : String := " Please provide more details."

/-- The two external capabilities of the command-line variant, both fallible:
`findSection` is `find_relevant_section` (embedder + cosine similarity +
argmax over the stored sections), `qa` is the extractive QA pipeline. -/
structure Caps where
  findSection : String → Except CapErr String
  qa : String → String → Except CapErr String

/-- `SupportBotAgent.answer_query` (command-line variant): retrieval errors
and QA errors are caught and replaced by fixed fallback strings; a context
that is empty or whose stripped length is below 10 short-circuits to the
no-info fallback before the QA model is invoked. -/
def answer_query (caps : Caps) (query : String) : String :=
  match caps.findSection query with
  | Except.error _ => fallbackNoInfo
  | Except.ok context =>
    if context = "" ∨ (stripChars context.data).length < 10 then fallbackNoInfo
    else
      match caps.qa query context with
      | Except.error _ => fallbackAnswerError
      | Except.ok answer => answer

/-- `SupportBotAgent.get_feedback` (command-line variant): empty or
fewer-than-3-token responses are classified `too vague` unconditionally;
otherwise the random draw `rand` of this round is returned. -/
def get_feedback (rand : Feedback) (response : String) : Feedback :=
  if response = "" ∨ (pyTokens response).length < 3 then Feedback.tooVague else rand

/-- `SupportBotAgent.adjust_response` (command-line variant).  The
`too vague` branch calls `find_relevant_section` with no try/except, so a
capability error there propagates (hence the `Except` result); the
`not helpful` branch re-runs the full `answer_query` pipeline on the query
with the clarification suffix appended and cannot raise. -/
def adjust_response (caps : Caps) (query response : String) (feedback : Feedback) :
    Except CapErr String :=
  match feedback with
  | Feedback.tooVague =>
    match caps.findSection query with
    | Except.error e => Except.error e
    | Except.ok context =>
      Except.ok (response ++ " Additional context: " ++
        String.mk (stripChars (context.data.take 200)) ++ "...")
  | Feedback.notHelpful => Except.ok (answer_query caps (query ++ clarifySuffix))
  | Feedback.good => Except.ok response

/-- The feedback loop of `SupportBotAgent.run` (command-line variant) for one
query: `for iteration in range(max_iterations)` with an early break on
`good`.  The result carries the final response (or the propagated capability
error), the trace of (response, label) classification rounds, and whether
the loop broke early on a `good` label. -/
def runLoop (caps : Caps) (query : String) (rands : Nat → Feedback) :
    Nat → String → List (String × Feedback) →
    Except CapErr String × List (String × Feedback) × Bool
  | 0, response, trace => (Except.ok response, trace, false)
  | remaining + 1, response, trace =>
    let fb := get_feedback (rands trace.length) response
    if fb = Feedback.good then (Except.ok response, trace ++ [(response, fb)], true)
    else
      match adjust_response caps query response fb with
      | Except.error e => (Except.error e, trace ++ [(response, fb)], false)
      | Except.ok newResponse =>
        runLoop caps query rands remaining newResponse (trace ++ [(response, fb)])

/-- `SupportBotAgent.run` (command-line variant) restricted to one query:
initial `answer_query`, then the bounded feedback loop. -/
def runQuery (caps : Caps) (query : String) (rands : Nat → Feedback)
    (maxIterations : Nat) :
    Except CapErr String × List (String × Feedback) × Bool :=
  runLoop caps query rands maxIterations (answer_query caps query) []

/-- First index of the maximal element of a score list (the semantics of
`similarities.argmax()`: ties resolve to the lowest index). -/
def argmaxIdx : List Int → Nat
  | [] => 0
  | [_] => 0
  | x :: y :: rest =>
    if x < (y :: rest).getD (argmaxIdx (y :: rest)) 0 then argmaxIdx (y :: rest) + 1
    else 0

/-- Index selection of `SupportBotAgent.find_relevant_section`: embed the
query, score it against every stored section embedding, take the argmax. -/
def selectIdx {E : Type} (embed : String → E) (sim : E → E → Int)
    (sectionEmbeddings : List E) (query : String) : Nat :=
  argmaxIdx (sectionEmbeddings.map (fun e => sim (embed query) e))

/-- `SupportBotAgent.find_relevant_section`: the section at the selected
index. -/
def find_relevant_section {E : Type} (embed : String → E) (sim : E → E → Int)
    (sections : List String) (sectionEmbeddings : List E) (query : String) : String :=
  sections.getD (selectIdx embed sim sectionEmbeddings query) ""

/-- Fallback answer of the Streamlit variant for an empty retrieved
context. -/
def sorryNoInfo : String :=
  "Sorry, I don’t have enough information to answer that. Please contact support@example.com."

/-- External capabilities of the Streamlit variant.  The claims about this
variant only concern runs on which the capabilities succeed, so they are
modelled as total functions. -/
structure SCaps where
  findSection : String → String
  qa : String → String → String

/-- `answer_query` of the Streamlit variant: no minimum-length guard, only
an empty-after-strip check. -/
def answer_query_s (c : SCaps) (query : String) : String :=
  let context := c.findSection query
  if pyStrip context = "" then sorryNoInfo else c.qa query context

/-- `get_feedback` of the Streamlit variant (no separate empty-string
check; an empty response has 0 tokens and is `too vague` anyway). -/
def get_feedback_s (rand : Feedback) (response : String) : Feedback :=
  if (pyTokens response).length < 3 then Feedback.tooVague else rand

/-- `adjust_response` of the Streamlit variant. -/
def adjust_response_s (c : SCaps) (query response : String) (feedback : Feedback) :
    String :=
  match feedback with
  | Feedback.tooVague =>
    response ++ " (More info: " ++ String.mk ((c.findSection query).data.take 120) ++ "...)"
  | Feedback.notHelpful => answer_query_s c (query ++ detailsSuffix)
  | Feedback.good => response

/-- The `for _ in range(2)` feedback loop of the Streamlit `run`: appends
the label each round, then either appends the final response and breaks on
`good`, or adjusts and appends the updated response.  `i` indexes the
random draw of the round. -/
def runLoopS (c : SCaps) (query : String) (rands : Nat → Feedback) :
    Nat → Nat → String → List String → List Feedback → List String × List Feedback
  | 0, _, _, responses, feedbacks => (responses, feedbacks)
  | remaining + 1, i, response, responses, feedbacks =>
    let fb := get_feedback_s (rands i) response
    if fb = Feedback.good then
      (responses ++ ["Final Response: " ++ response], feedbacks ++ [fb])
    else
      let newResponse := adjust_response_s c query response fb
      runLoopS c query rands remaining (i + 1) newResponse
        (responses ++ ["Updated Response: " ++ newResponse]) (feedbacks ++ [fb])

/-- `SupportBotAgent.run` of the Streamlit variant: initial answer, then at
most 2 feedback rounds; returns the response list and the feedback list. -/
def runS (c : SCaps) (query : String) (rands : Nat → Feedback) :
    List String × List Feedback :=
  runLoopS c query rands 2 0 (answer_query_s c query)
    ["Initial Response: " ++ answer_query_s c query] []

/-- Load-time segmentation error postulated by the specification. -/
inductive SegError
  | EmptyDocument
deriving DecidableEq

/-- Modelled from the spec: the specification's `segment` contract (§4.1),
which demands a fatal `EmptyDocument` failure when the paragraph split and
the line-split fallback both yield zero sections.  The repository's
`__init__` has no such failure path; this definition exists only to be
compared against `initSections`. -/
def segmentSpec (text : String) : Except SegError (List String) :=
  let paras := segmentParas text
  let sections := if paras = [] then segmentLines text else paras
  if sections = [] then Except.error SegError.EmptyDocument else Except.ok sections

/-- Capabilities whose every call raises, for exercising the error paths. -/
def failCaps : Caps :=
  { findSection := fun _ => Except.error CapErr.capFail
    qa := fun _ _ => Except.error CapErr.capFail }

/-- Capabilities whose retrieval succeeds but whose QA model always
raises. -/
def qaFailCaps : Caps :=
  { findSection := fun _ => Except.ok "To reset your password, click Forgot Password."
    qa := fun _ _ => Except.error CapErr.capFail }

/-- Deterministic demonstration capabilities for the command-line
variant. -/
def demoCaps : Caps :=
  { findSection := fun _ => Except.ok "To reset your password, click Forgot Password."
    qa := fun _ _ => Except.ok "click Forgot Password on the login page" }

/-- Deterministic demonstration capabilities for the Streamlit variant. -/
def demoSCaps : SCaps :=
  { findSection := fun _ => "We offer refunds within 30 days of purchase."
    qa := fun _ _ => "You can request a refund within 30 days" }

/-! ## Helper lemmas -/

theorem splitParaAux_no_newline :
    ∀ (cs acc : List Char), '\n' ∉ cs → splitParaAux acc cs = [acc.reverse ++ cs] := by
  intro cs
  induction cs with
  | nil => intro acc _; simp [splitParaAux]
  | cons c tail ih =>
    intro acc h
    simp only [List.mem_cons, not_or] at h
    cases tail with
    | nil => simp [splitParaAux]
    | cons c2 rest =>
      have hc : ¬(c = '\n' ∧ c2 = '\n') := by
        intro hcc
        exact h.1 hcc.1.symm
      simp only [splitParaAux, if_neg hc]
      rw [ih (c :: acc) h.2]
      simp

theorem stripChars_all_space (p : List Char) (h : ∀ c ∈ p, isPySpace c = true) :
    stripChars p = [] := by
  unfold stripChars
  rw [List.dropWhile_eq_nil_iff.mpr h]
  simp

theorem splitParaAux_all_space :
    ∀ (n : Nat) (cs acc : List Char), cs.length ≤ n →
      (∀ c ∈ cs, isPySpace c = true) → (∀ c ∈ acc, isPySpace c = true) →
      ∀ p ∈ splitParaAux acc cs, ∀ c ∈ p, isPySpace c = true := by
  intro n
  induction n with
  | zero =>
    intro cs acc hlen hcs hacc p hp
    have : cs = [] := List.length_eq_zero.mp (Nat.le_zero.mp hlen)
    subst this
    simp only [splitParaAux, List.mem_singleton] at hp
    subst hp
    intro c hc
    exact hacc c (List.mem_reverse.mp hc)
  | succ n ih =>
    intro cs acc hlen hcs hacc p hp
    match cs with
    | [] =>
      simp only [splitParaAux, List.mem_singleton] at hp
      subst hp
      intro c hc
      exact hacc c (List.mem_reverse.mp hc)
    | [c1] =>
      simp only [splitParaAux, List.mem_singleton] at hp
      subst hp
      intro c hc
      rcases List.mem_cons.mp (List.mem_reverse.mp hc) with h1 | h2
      · exact h1 ▸ hcs c1 (List.mem_singleton.mpr rfl)
      · exact hacc c h2
    | c1 :: c2 :: rest =>
      simp only [splitParaAux] at hp
      by_cases hnn : c1 = '\n' ∧ c2 = '\n'
      · rw [if_pos hnn] at hp
        rcases List.mem_cons.mp hp with h1 | h2
        · subst h1
          intro c hc
          exact hacc c (List.mem_reverse.mp hc)
        · refine ih rest [] ?_ ?_ (by intro c hc; cases hc) p h2
          · simp at hlen ⊢; omega
          · intro c hc
            exact hcs c (by simp [hc])
      · rw [if_neg hnn] at hp
        refine ih (c2 :: rest) (c1 :: acc) ?_ ?_ ?_ p hp
        · simp at hlen ⊢; omega
        · intro c hc
          exact hcs c (by simp only [List.mem_cons] at hc ⊢; tauto)
        · intro c hc
          rcases List.mem_cons.mp hc with h1 | h2
          · exact h1 ▸ hcs c1 (by simp)
          · exact hacc c h2

theorem splitLinesAux_all_space :
    ∀ (cs acc : List Char),
      (∀ c ∈ cs, isPySpace c = true) → (∀ c ∈ acc, isPySpace c = true) →
      ∀ p ∈ splitLinesAux acc cs, ∀ c ∈ p, isPySpace c = true := by
  intro cs
  induction cs with
  | nil =>
    intro acc _ hacc p hp
    simp only [splitLinesAux, List.mem_singleton] at hp
    subst hp
    intro c hc
    exact hacc c (List.mem_reverse.mp hc)
  | cons c1 tail ih =>
    intro acc hcs hacc p hp
    simp only [splitLinesAux] at hp
    by_cases hn : c1 = '\n'
    · rw [if_pos hn] at hp
      rcases List.mem_cons.mp hp with h1 | h2
      · subst h1
        intro c hc
        exact hacc c (List.mem_reverse.mp hc)
      · refine ih [] ?_ (by intro c hc; cases hc) p h2
        intro c hc
        exact hcs c (by simp [hc])
    · rw [if_neg hn] at hp
      refine ih (c1 :: acc) ?_ ?_ p hp
      · intro c hc
        exact hcs c (by simp [hc])
      · intro c hc
        rcases List.mem_cons.mp hc with h1 | h2
        · exact h1 ▸ hcs c1 (by simp)
        · exact hacc c h2

theorem argmaxIdx_lt_length : ∀ (l : List Int), l ≠ [] → argmaxIdx l < l.length := by
  intro l
  induction l with
  | nil => intro h; exact absurd rfl h
  | cons x tail ih =>
    intro _
    cases tail with
    | nil => simp [argmaxIdx]
    | cons y rest =>
      simp only [argmaxIdx]
      by_cases h : x < (y :: rest).getD (argmaxIdx (y :: rest)) 0
      · rw [if_pos h]
        have := ih (by simp)
        simp only [List.length_cons] at this ⊢
        omega
      · rw [if_neg h]
        simp

theorem argmaxIdx_is_max :
    ∀ (l : List Int) (j : Nat), j < l.length → l.getD j 0 ≤ l.getD (argmaxIdx l) 0 := by
  intro l
  induction l with
  | nil => intro j hj; simp at hj
  | cons x tail ih =>
    intro j hj
    cases tail with
    | nil =>
      simp only [List.length_singleton] at hj
      have hj0 : j = 0 := by omega
      subst hj0
      simp [argmaxIdx]
    | cons y rest =>
      simp only [argmaxIdx]
      by_cases h : x < (y :: rest).getD (argmaxIdx (y :: rest)) 0
      · rw [if_pos h]
        rw [List.getD_cons_succ]
        cases j with
        | zero => rw [List.getD_cons_zero]; exact le_of_lt h
        | succ k =>
          rw [List.getD_cons_succ]
          exact ih k (by simp only [List.length_cons] at hj ⊢; omega)
      · rw [if_neg h]
        rw [List.getD_cons_zero]
        cases j with
        | zero => rw [List.getD_cons_zero]
        | succ k =>
          rw [List.getD_cons_succ]
          refine le_trans ?_ (le_of_not_lt h)
          exact ih k (by simp only [List.length_cons] at hj ⊢; omega)

theorem argmaxIdx_first :
    ∀ (l : List Int) (j : Nat), j < l.length →
      l.getD (argmaxIdx l) 0 ≤ l.getD j 0 → argmaxIdx l ≤ j := by
  intro l
  induction l with
  | nil => intro j hj; simp at hj
  | cons x tail ih =>
    intro j hj hle
    cases tail with
    | nil => simp [argmaxIdx]
    | cons y rest =>
      simp only [argmaxIdx] at hle ⊢
      by_cases h : x < (y :: rest).getD (argmaxIdx (y :: rest)) 0
      · rw [if_pos h] at hle ⊢
        rw [List.getD_cons_succ] at hle
        cases j with
        | zero =>
          rw [List.getD_cons_zero] at hle
          exact absurd (lt_of_lt_of_le h hle) (lt_irrefl x)
        | succ k =>
          rw [List.getD_cons_succ] at hle
          have := ih k (by simp only [List.length_cons] at hj ⊢; omega) hle
          omega
      · rw [if_neg h]
        exact Nat.zero_le j

theorem runLoop_trace_le :
    ∀ (caps : Caps) (query : String) (rands : Nat → Feedback) (remaining : Nat)
      (response : String) (trace : List (String × Feedback)),
      (runLoop caps query rands remaining response trace).2.1.length ≤
        trace.length + remaining := by
  intro caps query rands remaining
  induction remaining with
  | zero => intro response trace; simp [runLoop]
  | succ n ih =>
    intro response trace
    simp only [runLoop]
    by_cases hg : get_feedback (rands trace.length) response = Feedback.good
    · rw [if_pos hg]
      simp
    · rw [if_neg hg]
      cases hc : adjust_response caps query response
          (get_feedback (rands trace.length) response) with
      | error e => simp
      | ok newResponse =>
        have h2 := ih newResponse
          (trace ++ [(response, get_feedback (rands trace.length) response)])
        simp only [List.length_append, List.length_singleton] at h2
        show (runLoop caps query rands n newResponse
          (trace ++ [(response, get_feedback (rands trace.length) response)])).2.1.length ≤
            trace.length + (n + 1)
        omega

theorem runLoop_ok_of_findSection_ok :
    ∀ (caps : Caps) (query : String) (rands : Nat → Feedback) (s : String),
      caps.findSection query = Except.ok s →
      ∀ (remaining : Nat) (response : String) (trace : List (String × Feedback)),
        ∃ ans, (runLoop caps query rands remaining response trace).1 = Except.ok ans := by
  intro caps query rands s hs remaining
  induction remaining with
  | zero => intro response trace; exact ⟨response, rfl⟩
  | succ n ih =>
    intro response trace
    simp only [runLoop]
    by_cases hg : get_feedback (rands trace.length) response = Feedback.good
    · rw [if_pos hg]
      exact ⟨response, rfl⟩
    · rw [if_neg hg]
      cases hc : adjust_response caps query response
          (get_feedback (rands trace.length) response) with
      | error e =>
        exfalso
        cases hfb : get_feedback (rands trace.length) response with
        | good => exact hg hfb
        | tooVague => rw [hfb] at hc; simp [adjust_response, hs] at hc
        | notHelpful => rw [hfb] at hc; simp [adjust_response] at hc
      | ok newResponse =>
        exact ih newResponse (trace ++ [(response, get_feedback (rands trace.length) response)])

/-! ## Claim theorems -/

/-- C2 (counterexample): on the whitespace-only document `" \n "` the code's
section computation yields the empty list and initialization simply proceeds
with it, while the specification's `segment` contract demands an
`EmptyDocument` failure — refuting the claim that segmentation fails and
aborts initialization. -/
theorem c2_counterexample_whitespace_only_proceeds :
    initSections " \n " = [] ∧
      segmentSpec " \n " = Except.error SegError.EmptyDocument :=
  ⟨rfl, rfl⟩

/-- C2 (amended): for every empty or whitespace-only input text, the
paragraph split and the line-split fallback both yield zero sections, and
`__init__` proceeds with the empty section sequence — no `EmptyDocument`
error is raised anywhere in the code. -/
theorem c2_whitespace_only_yields_no_sections (text : String)
    (h : ∀ c ∈ text.data, isPySpace c = true) :
    segmentParas text = [] ∧ segmentLines text = [] ∧ initSections text = [] := by
  have hp : segmentParas text = [] := by
    unfold segmentParas
    rw [List.filter_eq_nil_iff]
    intro s hs
    rcases List.mem_map.mp hs with ⟨p, hpmem, rfl⟩
    have hall := splitParaAux_all_space text.data.length text.data [] le_rfl h
      (by intro c hc; cases hc) p hpmem
    rw [stripChars_all_space p hall]
    decide
  have hl : segmentLines text = [] := by
    unfold segmentLines
    rw [List.filter_eq_nil_iff]
    intro s hs
    rcases List.mem_map.mp hs with ⟨p, hpmem, rfl⟩
    have hall := splitLinesAux_all_space text.data [] h
      (by intro c hc; cases hc) p hpmem
    rw [stripChars_all_space p hall]
    decide
  exact ⟨hp, hl, by simp [initSections, hp, hl]⟩

/-- Witness for C2 (amended) at the concrete whitespace-only document
`" \n\t "`. -/
theorem c2_whitespace_only_yields_no_sections_witness :
    (∀ c ∈ " \n\t ".data, isPySpace c = true) ∧
      (segmentParas " \n\t " = [] ∧ segmentLines " \n\t " = [] ∧
        initSections " \n\t " = []) :=
  ⟨by decide, c2_whitespace_only_yields_no_sections " \n\t " (by decide)⟩

/-- C9: for every input text that is nonempty after stripping and contains
no newline at all (hence no paragraph boundary and no line break), the
section computation of `__init__` produces exactly one section, equal to the
stripped input text. -/
theorem c9_boundary_free_text_single_section (text : String)
    (h1 : '\n' ∉ text.data) (h2 : pyStrip text ≠ "") :
    initSections text = [pyStrip text] := by
  have hp : segmentParas text = [pyStrip text] := by
    unfold segmentParas
    rw [splitParaAux_no_newline text.data [] h1]
    simp only [List.reverse_nil, List.nil_append, List.map_cons, List.map_nil]
    have hmk : String.mk (stripChars text.data) = pyStrip text := rfl
    rw [hmk]
    have hb : (pyStrip text != "") = true := bne_iff_ne.mpr h2
    simp [List.filter, hb]
  simp [initSections, hp]

/-- Witness for C9 at the concrete boundary-free document
`"hello world"`. -/
theorem c9_boundary_free_text_single_section_witness :
    '\n' ∉ "hello world".data ∧ pyStrip "hello world" ≠ "" ∧
      initSections "hello world" = [pyStrip "hello world"] :=
  ⟨by decide, by decide,
    c9_boundary_free_text_single_section "hello world" (by decide) (by decide)⟩

/-- C3: for every query, every `max_iterations` bound, and every feedback
sequence (the random oracle `rands` is universally quantified, covering the
adversarial all-`too vague` sequence), the refinement loop performs at most
`max_iterations` classification rounds — the trace records exactly one entry
per classification round, including the round of an early `good` break or of
a propagated adjustment error.  The loop is structurally recursive on the
iteration budget, so it terminates by construction. -/
theorem c3_loop_classifies_at_most_max_iterations (caps : Caps) (query : String)
    (rands : Nat → Feedback) (maxIterations : Nat) :
    (runQuery caps query rands maxIterations).2.1.length ≤ maxIterations := by
  have h := runLoop_trace_le caps query rands maxIterations (answer_query caps query) []
  simpa [runQuery] using h

/-- C1 (counterexample): with a similarity capability that raises on every
call and a feedback draw of `too vague`, the run of the query
`"How do I reset my password?"` aborts with a propagated capability error:
the initial answer degrades to the fallback string, but the `too vague`
adjustment calls `find_relevant_section` outside any try/except and the
error escapes the loop — refuting the claim that errors at any point of the
run are recovered locally. -/
theorem c1_counterexample_tooVague_adjustment_error_propagates :
    (runQuery failCaps "How do I reset my password?" (fun _ => Feedback.tooVague) 2).1 =
      Except.error CapErr.capFail := by
  rfl

/-- C1 (amended): errors are recovered locally into fallback strings in the
initial answer and in the `not helpful` re-answer (both go through
`answer_query`, which catches everything), so whenever the similarity
capability succeeds on the original query — in particular for every run in
which no `too vague` adjustment has to retrieve — the run never aborts: it
returns a final response no matter how the extractive-answering capability
fails.  Only a similarity-capability error inside a `too vague` adjustment
can propagate. -/
theorem c1_run_never_aborts_when_similarity_succeeds (caps : Caps) (query : String)
    (rands : Nat → Feedback) (maxIterations : Nat)
    (h : ∃ s, caps.findSection query = Except.ok s) :
    ∃ ans, (runQuery caps query rands maxIterations).1 = Except.ok ans := by
  rcases h with ⟨s, hs⟩
  exact runLoop_ok_of_findSection_ok caps query rands s hs maxIterations
    (answer_query caps query) []

/-- Witness for C1 (amended): retrieval succeeds but the QA model raises on
every call, the feedback oracle always answers `too vague`; the run still
completes with a final response. -/
theorem c1_run_never_aborts_when_similarity_succeeds_witness :
    ∃ ans, (runQuery qaFailCaps "How do I reset my password?"
      (fun _ => Feedback.tooVague) 2).1 = Except.ok ans :=
  c1_run_never_aborts_when_similarity_succeeds qaFailCaps "How do I reset my password?"
    (fun _ => Feedback.tooVague) 2 ⟨_, rfl⟩

/-- C4: for every query and every retrieved context whose stripped text is
shorter than 10 characters (which subsumes the empty case), `answer_query`
returns the fixed fallback string and the result does not depend on the QA
capability at all — the same run with any other QA capability returns the
same string, so the extraction capability is never invoked. -/
theorem c4_short_context_fallback_without_qa (find : String → Except CapErr String)
    (qa qa2 : String → String → Except CapErr String) (query context : String)
    (hfind : find query = Except.ok context)
    (hshort : (stripChars context.data).length < 10) :
    answer_query ⟨find, qa⟩ query = fallbackNoInfo ∧
      answer_query ⟨find, qa⟩ query = answer_query ⟨find, qa2⟩ query := by
  have h1 : ∀ q : String → String → Except CapErr String,
      answer_query ⟨find, q⟩ query = fallbackNoInfo := by
    intro q
    simp only [answer_query, hfind]
    rw [if_pos (Or.inr hshort)]
  exact ⟨h1 qa, (h1 qa).trans (h1 qa2).symm⟩

/-- Witness for C4 at the concrete 5-character context `"short"`: with a
successful QA stub and with an always-raising QA stub the answer is the same
fixed fallback. -/
theorem c4_short_context_fallback_without_qa_witness :
    ((fun _ => Except.ok "short") : String → Except CapErr String) "q" =
        Except.ok "short" ∧
      (stripChars "short".data).length < 10 ∧
      (answer_query ⟨fun _ => Except.ok "short", fun _ _ => Except.ok "a fine answer"⟩ "q" =
          fallbackNoInfo ∧
        answer_query ⟨fun _ => Except.ok "short", fun _ _ => Except.ok "a fine answer"⟩ "q" =
          answer_query ⟨fun _ => Except.ok "short",
            fun _ _ => Except.error CapErr.capFail⟩ "q") :=
  ⟨rfl, by decide,
    c4_short_context_fallback_without_qa (fun _ => Except.ok "short")
      (fun _ _ => Except.ok "a fine answer") (fun _ _ => Except.error CapErr.capFail)
      "q" "short" rfl (by decide)⟩

/-- C8: for every response with fewer than 3 whitespace-separated tokens,
`get_feedback` classifies it `too vague`, and the result is independent of
the random draw — the random choice is irrelevant (in the code, `random.choice`
sits on the untaken else-branch, so no random choice is made). -/
theorem c8_short_response_classified_too_vague (rand1 rand2 : Feedback)
    (response : String) (h : (pyTokens response).length < 3) :
    get_feedback rand1 response = Feedback.tooVague ∧
      get_feedback rand1 response = get_feedback rand2 response := by
  have h1 : ∀ r : Feedback, get_feedback r response = Feedback.tooVague := by
    intro r
    unfold get_feedback
    rw [if_pos (Or.inr h)]
  exact ⟨h1 rand1, (h1 rand1).trans (h1 rand2).symm⟩

/-- Witness for C8 at the concrete 2-token response `"hi there"`, with two
different random draws. -/
theorem c8_short_response_classified_too_vague_witness :
    (pyTokens "hi there").length < 3 ∧
      (get_feedback Feedback.good "hi there" = Feedback.tooVague ∧
        get_feedback Feedback.good "hi there" =
          get_feedback Feedback.notHelpful "hi there") :=
  ⟨by decide,
    c8_short_response_classified_too_vague Feedback.good Feedback.notHelpful
      "hi there" (by decide)⟩

/-- C6: on `not helpful` feedback the adjustment returns exactly the result
of re-running the full `answer_query` pipeline on the original query with
the fixed clarification suffix appended, and inside the refinement loop a
`not helpful` round continues with precisely that derived-query answer — the
derivation always starts from the loop's original query (the loop passes
`query` unchanged into every adjustment), never from the current
response. -/
theorem c6_notHelpful_rederives_from_original_query (caps : Caps)
    (query response : String) (rands : Nat → Feedback) (remaining : Nat)
    (trace : List (String × Feedback))
    (h : get_feedback (rands trace.length) response = Feedback.notHelpful) :
    adjust_response caps query response Feedback.notHelpful =
        Except.ok (answer_query caps (query ++ clarifySuffix)) ∧
      runLoop caps query rands (remaining + 1) response trace =
        runLoop caps query rands remaining
          (answer_query caps (query ++ clarifySuffix))
          (trace ++ [(response, Feedback.notHelpful)]) := by
  constructor
  · rfl
  · simp only [runLoop, h]
    rw [if_neg (by decide : ¬(Feedback.notHelpful = Feedback.good))]
    rfl

/-- Witness for C6: a concrete `not helpful` round on the 3-token response
`"a b c"` with one remaining iteration. -/
theorem c6_notHelpful_rederives_from_original_query_witness :
    get_feedback ((fun _ => Feedback.notHelpful) (([] : List (String × Feedback))).length)
        "a b c" = Feedback.notHelpful ∧
      (adjust_response demoCaps "How do I contact support?" "a b c" Feedback.notHelpful =
          Except.ok (answer_query demoCaps ("How do I contact support?" ++ clarifySuffix)) ∧
        runLoop demoCaps "How do I contact support?" (fun _ => Feedback.notHelpful) (0 + 1)
            "a b c" [] =
          runLoop demoCaps "How do I contact support?" (fun _ => Feedback.notHelpful) 0
            (answer_query demoCaps ("How do I contact support?" ++ clarifySuffix))
            ([] ++ [("a b c", Feedback.notHelpful)])) :=
  ⟨by decide,
    c6_notHelpful_rederives_from_original_query demoCaps "How do I contact support?"
      "a b c" (fun _ => Feedback.notHelpful) 0 [] (by decide)⟩

/-- C5: if the feedback classifier returns `not helpful` on both rounds
(random draws are `not helpful` and both classified responses have at least
3 tokens, so the hard `too vague` rule does not fire), the Streamlit run
with its fixed cap of 2 iterations terminates exhausted: no `good` break
occurs (no `Final Response` entry is produced), the feedback trace has
length exactly 2, and the final response is the answer computed for the
(second) derived query — the original query with the clarification suffix
appended. -/
theorem c5_always_notHelpful_exhausts_after_two_rounds (c : SCaps)
    (query : String) (rands : Nat → Feedback)
    (h0 : rands 0 = Feedback.notHelpful) (h1 : rands 1 = Feedback.notHelpful)
    (ht0 : 3 ≤ (pyTokens (answer_query_s c query)).length)
    (ht1 : 3 ≤ (pyTokens (answer_query_s c (query ++ detailsSuffix))).length) :
    runS c query rands =
      (["Initial Response: " ++ answer_query_s c query,
        "Updated Response: " ++ answer_query_s c (query ++ detailsSuffix),
        "Updated Response: " ++ answer_query_s c (query ++ detailsSuffix)],
       [Feedback.notHelpful, Feedback.notHelpful]) := by
  have hf0 : get_feedback_s (rands 0) (answer_query_s c query) = Feedback.notHelpful := by
    unfold get_feedback_s
    rw [if_neg (by omega), h0]
  have hf1 : get_feedback_s (rands 1)
      (answer_query_s c (query ++ detailsSuffix)) = Feedback.notHelpful := by
    unfold get_feedback_s
    rw [if_neg (by omega), h1]
  simp [runS, runLoopS, adjust_response_s, hf0, hf1]

/-- C7: section selection is an argmax over the similarity scores of the
query embedding against each stored section embedding: with a deterministic
embedding capability it is a pure function (calls with an equal query give
an equal index), the selected index is in range, its score is maximal, and
among all indices attaining the maximal score the selected one is the
lowest — ties break to the first occurrence. -/
theorem c7_selection_deterministic_first_max {E : Type} (embed : String → E)
    (sim : E → E → Int) (sectionEmbeddings : List E) (query : String)
    (h : sectionEmbeddings ≠ []) :
    (∀ query2, query2 = query →
        selectIdx embed sim sectionEmbeddings query2 =
          selectIdx embed sim sectionEmbeddings query) ∧
      selectIdx embed sim sectionEmbeddings query <
        (sectionEmbeddings.map (fun e => sim (embed query) e)).length ∧
      (∀ j, j < (sectionEmbeddings.map (fun e => sim (embed query) e)).length →
        (sectionEmbeddings.map (fun e => sim (embed query) e)).getD j 0 ≤
          (sectionEmbeddings.map (fun e => sim (embed query) e)).getD
            (selectIdx embed sim sectionEmbeddings query) 0) ∧
      (∀ j, j < (sectionEmbeddings.map (fun e => sim (embed query) e)).length →
        (sectionEmbeddings.map (fun e => sim (embed query) e)).getD
            (selectIdx embed sim sectionEmbeddings query) 0 ≤
          (sectionEmbeddings.map (fun e => sim (embed query) e)).getD j 0 →
        selectIdx embed sim sectionEmbeddings query ≤ j) := by
  refine ⟨fun query2 hq => by rw [hq], ?_, ?_, ?_⟩
  · exact argmaxIdx_lt_length _ (by simpa using h)
  · intro j hj
    exact argmaxIdx_is_max _ j hj
  · intro j hj hle
    exact argmaxIdx_first _ j hj hle

/-- Witness for C7 on the concrete score list `[5, 7, 7, 3]` (embeddings are
the scores themselves, similarity is the second projection): the maximal
score 7 is attained at indices 1 and 2 and the selection properties hold
there. -/
theorem c7_selection_deterministic_first_max_witness :
    ([(5 : Int), 7, 7, 3] ≠ []) ∧
      ((∀ query2, query2 = "q" →
          selectIdx (fun _ => (0 : Int)) (fun _ e => e) [(5 : Int), 7, 7, 3] query2 =
            selectIdx (fun _ => (0 : Int)) (fun _ e => e) [(5 : Int), 7, 7, 3] "q") ∧
        selectIdx (fun _ => (0 : Int)) (fun _ e => e) [(5 : Int), 7, 7, 3] "q" <
          (([(5 : Int), 7, 7, 3]).map (fun e => (fun _ e => e) ((fun _ => (0 : Int)) "q") e)).length ∧
        (∀ j, j < (([(5 : Int), 7, 7, 3]).map (fun e => (fun _ e => e) ((fun _ => (0 : Int)) "q") e)).length →
          (([(5 : Int), 7, 7, 3]).map (fun e => (fun _ e => e) ((fun _ => (0 : Int)) "q") e)).getD j 0 ≤
            (([(5 : Int), 7, 7, 3]).map (fun e => (fun _ e => e) ((fun _ => (0 : Int)) "q") e)).getD
              (selectIdx (fun _ => (0 : Int)) (fun _ e => e) [(5 : Int), 7, 7, 3] "q") 0) ∧
        (∀ j, j < (([(5 : Int), 7, 7, 3]).map (fun e => (fun _ e => e) ((fun _ => (0 : Int)) "q") e)).length →
          (([(5 : Int), 7, 7, 3]).map (fun e => (fun _ e => e) ((fun _ => (0 : Int)) "q") e)).getD
              (selectIdx (fun _ => (0 : Int)) (fun _ e => e) [(5 : Int), 7, 7, 3] "q") 0 ≤
            (([(5 : Int), 7, 7, 3]).map (fun e => (fun _ e => e) ((fun _ => (0 : Int)) "q") e)).getD j 0 →
          selectIdx (fun _ => (0 : Int)) (fun _ e => e) [(5 : Int), 7, 7, 3] "q" ≤ j)) :=
  ⟨by decide,
    c7_selection_deterministic_first_max (fun _ => (0 : Int)) (fun _ e => e)
      [(5 : Int), 7, 7, 3] "q" (by decide)⟩

/-- C10: for every query, every capability behaviour and every feedback
sequence, the Streamlit `run` returns a response list and a feedback list
with `responses.length = feedbacks.length + 1` and
`1 ≤ feedbacks.length ≤ 2`: one feedback entry per classification round
(never more than the fixed cap of 2), and the initial response plus one
response entry per round. -/
theorem c10_runS_one_response_per_round (c : SCaps) (query : String)
    (rands : Nat → Feedback) :
    (runS c query rands).1.length = (runS c query rands).2.length + 1 ∧
      1 ≤ (runS c query rands).2.length ∧ (runS c query rands).2.length ≤ 2 := by
  unfold runS
  simp only [runLoopS]
  split_ifs <;> simp

/-- Witness for C5 with concrete deterministic capabilities and an
all-`not helpful` feedback oracle. -/
theorem c5_always_notHelpful_exhausts_after_two_rounds_witness :
    runS demoSCaps "What is the refund policy?" (fun _ => Feedback.notHelpful) =
      (["Initial Response: " ++ answer_query_s demoSCaps "What is the refund policy?",
        "Updated Response: " ++
          answer_query_s demoSCaps ("What is the refund policy?" ++ detailsSuffix),
        "Updated Response: " ++
          answer_query_s demoSCaps ("What is the refund policy?" ++ detailsSuffix)],
       [Feedback.notHelpful, Feedback.notHelpful]) :=
  c5_always_notHelpful_exhausts_after_two_rounds demoSCaps "What is the refund policy?"
    (fun _ => Feedback.notHelpful) rfl rfl (by decide) (by decide)
